import Mathlib

/-!
Shallow embedding of the `wna` crate (a Windows notification-area / tray-icon
library) for checking its design specification.

Sources embedded:
* `src/lib.rs` — shared state `Repr`, the public handle `Wna`, the builder
  `WnaBuilder`, and the event dispatch loop `start_event_loop`;
* `src/window.rs` — the native-surface wrapper `Window`.

Modelling conventions:
* Rust `u32` is `Nat` with arithmetic taken modulo `2 ^ 32` where overflow can
  occur (`last_menu_id += 1`).
* User callbacks (`pub type Action = fn(&mut Wna)`) are opaque to the library;
  they are modelled by an abstract identifier (`Nat`).  The dispatch loop is
  modelled as emitting the callbacks it invokes (together with the `Wna`
  handle it passes them) rather than running them, since their bodies are
  arbitrary user code.
* Calls into the OS (`Shell_NotifyIconW`, `InsertMenuItemW`, ...) can succeed
  or fail for reasons outside the program; each such call takes its outcome as
  an explicit `Except String Unit` oracle argument.  The closed-handle check
  that `window.rs` performs before every native call is part of the embedded
  code, not of the oracle.
* `HashMap<u32, Action>` is modelled by an association list with
  insert-or-replace (`mapInsert`) and lookup (`mapGet`).
* The mpsc channel is modelled by returning the list of events a call sends.
-/

set_option linter.unusedVariables false

namespace wna

/-- Modulus of Rust `u32` arithmetic. -/
def U32 : Nat := 2 ^ 32

/-- The user callback type `pub type Action = fn(&mut Wna)`, modelled by an
abstract identifier. -/
abbrev Action := Nat

/-- `pub enum Icon` from `lib.rs`. -/
inductive Icon where
  | File (path : String)
  | ResourceByName (name : String)
  | ResourceByOrd (ord : Nat)
deriving DecidableEq

/-- `pub enum MenuItem` from `lib.rs`: an action with a title and a callback,
or a separator. -/
inductive MenuItem where
  | Action (title : String) (action : Action)
  | Separator
deriving DecidableEq

/-- `pub enum Event` from `lib.rs`: the domain events consumed by the event
dispatch loop. -/
inductive Event where
  | Menu (id : Nat)
  | Balloon
  | Quit
deriving DecidableEq

/-- `struct WindowHandle` from `window.rs` (the raw `HWND`/`HMENU` pair),
modelled by abstract numeric handles. -/
structure WindowHandle where
  hwnd : Nat
  hmenu : Nat
deriving DecidableEq

/-- `pub struct Window` from `window.rs`: `handle` is `None` once the window
has been closed.  The message-pump `JoinHandle` is not modelled. -/
structure Window where
  handle : Option WindowHandle
deriving DecidableEq

/-- The error string every `Window` mutator returns after close
(`Err("Window is closed".to_string())` in `window.rs`). -/
def closedErr : String := "Window is closed"

/-- `Window::set_icon`: loading the icon and `Shell_NotifyIconW(NIM_MODIFY)`
are native calls whose combined outcome is the oracle `nres`; a closed window
fails with `closedErr` without reaching the native call. -/
def Window.set_icon (w : Window) (icon : Icon) (nres : Except String Unit) :
    Except String Unit :=
  match w.handle with
  | some _ => nres
  | none => Except.error closedErr

/-- `Window::set_tip` from `window.rs`. -/
def Window.set_tip (w : Window) (tip : String) (nres : Except String Unit) :
    Except String Unit :=
  match w.handle with
  | some _ => nres
  | none => Except.error closedErr

/-- `Window::add_menu_item` from `window.rs` (`InsertMenuItemW` outcome is the
oracle `nres`). -/
def Window.add_menu_item (w : Window) (id : Nat) (title : String)
    (nres : Except String Unit) : Except String Unit :=
  match w.handle with
  | some _ => nres
  | none => Except.error closedErr

/-- `Window::add_menu_separator` from `window.rs`. -/
def Window.add_menu_separator (w : Window) (id : Nat)
    (nres : Except String Unit) : Except String Unit :=
  match w.handle with
  | some _ => nres
  | none => Except.error closedErr

/-- `Window::show_balloon` from `window.rs`. -/
def Window.show_balloon (w : Window) (title body : String)
    (nres : Except String Unit) : Except String Unit :=
  match w.handle with
  | some _ => nres
  | none => Except.error closedErr

/-- `Window::close` from `window.rs`: posts `WM_DESTROY` only when a handle is
still present, then clears the handle (and joins the pump thread).  The
returned `Bool` records whether the destroy message was posted. -/
def Window.close (w : Window) : Bool × Window :=
  (w.handle.isSome, { handle := none })

/-- Lookup in the `HashMap<u32, Action>` model. -/
def mapGet (m : List (Nat × Action)) (k : Nat) : Option Action :=
  match m with
  | [] => none
  | (k2, v) :: rest => if k2 = k then some v else mapGet rest k

/-- Insert-or-replace in the `HashMap<u32, Action>` model. -/
def mapInsert (m : List (Nat × Action)) (k : Nat) (v : Action) :
    List (Nat × Action) :=
  match m with
  | [] => [(k, v)]
  | (k2, v2) :: rest =>
    if k2 = k then (k, v) :: rest else (k2, v2) :: mapInsert rest k v

/-- `struct Repr` from `lib.rs`: the shared state behind the
`Arc<Mutex<Repr>>`.  The `event_sender` field is modelled by having `close`
return the events it sends. -/
structure Repr where
  window : Window
  last_menu_id : Nat
  actions : List (Nat × Action)
  balloon_action : Option Action
deriving DecidableEq

/-- `Repr::next_menu_id`: returns the current `last_menu_id` and increments it
(`u32` wrap-around made explicit). -/
def Repr.next_menu_id (s : Repr) : Nat × Repr :=
  (s.last_menu_id, { s with last_menu_id := (s.last_menu_id + 1) % U32 })

/-- `Repr::set_icon`: forwards to the window; no local state changes. -/
def Repr.set_icon (s : Repr) (icon : Icon) (nres : Except String Unit) :
    Except String Unit × Repr :=
  (s.window.set_icon icon nres, s)

/-- `Repr::set_tip`: forwards to the window; no local state changes. -/
def Repr.set_tip (s : Repr) (tip : String) (nres : Except String Unit) :
    Except String Unit × Repr :=
  (s.window.set_tip tip nres, s)

/-- `Repr::add_menu_item`: allocates the next id, forwards the insert to the
window (distinguishing `Action` from `Separator`), and registers the callback
in `actions` only for a successfully inserted `Action`. -/
def Repr.add_menu_item (s : Repr) (item : MenuItem)
    (nres : Except String Unit) : Except String Unit × Repr :=
  match item with
  | MenuItem.Action title action =>
    let p := s.next_menu_id
    match p.2.window.add_menu_item p.1 title nres with
    | Except.error e => (Except.error e, p.2)
    | Except.ok _ =>
      (Except.ok (), { p.2 with actions := mapInsert p.2.actions p.1 action })
  | MenuItem.Separator =>
    let p := s.next_menu_id
    (p.2.window.add_menu_separator p.1 nres, p.2)

/-- `Repr::show_balloon`: forwards the balloon to the window; on success the
pending balloon callback slot is overwritten, on failure the `?` operator
returns early and the slot is untouched. -/
def Repr.show_balloon (s : Repr) (title body : String) (action : Action)
    (nres : Except String Unit) : Except String Unit × Repr :=
  match s.window.show_balloon title body nres with
  | Except.error e => (Except.error e, s)
  | Except.ok _ => (Except.ok (), { s with balloon_action := some action })

/-- Result of `Repr::close`: the returned value, the new state, whether the
surface destroy message was posted, and the events sent on the channel
(empty when the channel is already disconnected; the send result is
discarded by `let _ = ...` either way). -/
structure CloseOut where
  result : Except String Unit
  repr : Repr
  destroyPosted : Bool
  sent : List Event

/-- `Repr::close`: closes the window, best-effort sends `Event::Quit`
(`sendOk` is the channel-connected oracle), and always returns `Ok(())`. -/
def Repr.close (s : Repr) (sendOk : Bool) : CloseOut :=
  let p := s.window.close
  { result := Except.ok ()
    repr := { s with window := p.2 }
    destroyPosted := p.1
    sent := if sendOk then [Event.Quit] else [] }

/-- `pub struct Wna` from `lib.rs`: the public handle.  `reprArc` is the
identity of the shared `Arc<Mutex<Repr>>`; `thread` is the event-loop join
handle, owned only by the instance returned from `build`. -/
structure Wna where
  reprArc : Nat
  thread : Option Nat
deriving DecidableEq

/-- `impl Clone for Wna`: shares the `Arc`, drops join-handle ownership. -/
def Wna.clone (h : Wna) : Wna :=
  { reprArc := h.reprArc, thread := none }

/-- One iteration of the `start_event_loop` match from `lib.rs`, on the shared
state `s` (the contents of the `Arc<Mutex<Repr>>` identified by `arc`).
Returns the callback invoked by this event, if any, paired with the fresh
`Wna` handle it receives; the state as left by the loop itself (the callback
body, being user code, is not run here); and whether the loop returns. -/
def handle_event (arc : Nat) (s : Repr) (e : Event) :
    Option (Action × Wna) × Repr × Bool :=
  match e with
  | Event.Menu id =>
    match mapGet s.actions id with
    | some a => (some (a, { reprArc := arc, thread := none }), s, false)
    | none => (none, s, false)
  | Event.Balloon =>
    match s.balloon_action with
    | some a =>
      (some (a, { reprArc := arc, thread := none }),
        { s with balloon_action := none }, false)
    | none => (none, { s with balloon_action := none }, false)
  | Event.Quit => (none, s, true)

/-- The event dispatch loop run over a queue of events: collects the
invocations (callback, handle) in order and the final shared state; stops at
the first `Quit` without reading further events. -/
def run_events (arc : Nat) (s : Repr) (evs : List Event) :
    List (Action × Wna) × Repr :=
  match evs with
  | [] => ([], s)
  | e :: rest =>
    match handle_event arc s e with
    | (inv, s1, true) => (inv.toList, s1)
    | (inv, s1, false) =>
      let p := run_events arc s1 rest
      (inv.toList ++ p.1, p.2)

/-- `pub struct WnaBuilder` from `lib.rs`. -/
structure WnaBuilder where
  window_class : Option String
  icon : Option Icon
  tip : Option String
  menu_items : List MenuItem

/-- Oracle for the native-call outcomes during `WnaBuilder::build`:
window creation, the optional icon and tip calls, and the per-index menu
insert calls. -/
structure BuildOracle where
  createRes : Except String WindowHandle
  iconRes : Except String Unit
  tipRes : Except String Unit
  itemRes : Nat → Except String Unit

/-- The `for item in self.menu_items` loop of `WnaBuilder::build`: applies
`Repr.add_menu_item` to each entry in order, aborting at the first error
(the `?` operator). -/
def applyItems (s : Repr) (items : List MenuItem)
    (res : Nat → Except String Unit) (i : Nat) : Except String Repr :=
  match items with
  | [] => Except.ok s
  | item :: rest =>
    match s.add_menu_item item (res i) with
    | (Except.ok _, s1) => applyItems s1 rest res (i + 1)
    | (Except.error e, _) => Except.error e

/-- `WnaBuilder::build` from `lib.rs`: creates the window, constructs the
initial `Repr` (fresh id counter, empty action map, no pending balloon),
then applies the accumulated icon, tip and menu entries through the ordinary
`Repr` methods, propagating the first error. -/
def WnaBuilder.build (b : WnaBuilder) (o : BuildOracle) : Except String Repr :=
  match o.createRes with
  | Except.error e => Except.error e
  | Except.ok wh =>
    let repr0 : Repr :=
      { window := { handle := some wh }
        last_menu_id := 0
        actions := []
        balloon_action := none }
    let step1 : Except String Repr :=
      match b.icon with
      | none => Except.ok repr0
      | some icon =>
        match repr0.set_icon icon o.iconRes with
        | (Except.ok _, s) => Except.ok s
        | (Except.error e, _) => Except.error e
    match step1 with
    | Except.error e => Except.error e
    | Except.ok repr1 =>
      let step2 : Except String Repr :=
        match b.tip with
        | none => Except.ok repr1
        | some tip =>
          match repr1.set_tip tip o.tipRes with
          | (Except.ok _, s) => Except.ok s
          | (Except.error e, _) => Except.error e
      match step2 with
      | Except.error e => Except.error e
      | Except.ok repr2 => applyItems repr2 b.menu_items o.itemRes 0

/-- Trace of a sequence of `Repr.add_menu_item` calls: the list of menu ids
allocated (each the first component of `Repr.next_menu_id` at that point) and
the final state.  Failing calls still consume their id, exactly as in the
source, so the sequence continues past errors. -/
def runAdds (s : Repr) (items : List MenuItem)
    (res : Nat → Except String Unit) (i : Nat) : List Nat × Repr :=
  match items with
  | [] => ([], s)
  | item :: rest =>
    let id := s.next_menu_id.1
    let s1 := (s.add_menu_item item (res i)).2
    let p := runAdds s1 rest res (i + 1)
    (id :: p.1, p.2)

end wna

namespace wna

/-- Oracle where window creation and every native call succeed. -/
def allOk (wh : WindowHandle) : BuildOracle :=
  { createRes := Except.ok wh
    iconRes := Except.ok ()
    tipRes := Except.ok ()
    itemRes := fun _ => Except.ok () }

/-- The `Repr` value `WnaBuilder::build` constructs before applying the
accumulated configuration: fresh id counter, empty action map, no pending
balloon callback. -/
def initRepr (wh : WindowHandle) : Repr :=
  { window := { handle := some wh }
    last_menu_id := 0
    actions := []
    balloon_action := none }

/-- A freshly built shared state with no menu entries. -/
def reprEx : Repr :=
  { window := { handle := some { hwnd := 1, hmenu := 2 } }
    last_menu_id := 0
    actions := []
    balloon_action := none }

/-- A state with a pending balloon callback (callback `1`). -/
def reprBalloonEx : Repr :=
  { window := { handle := some { hwnd := 1, hmenu := 2 } }
    last_menu_id := 3
    actions := []
    balloon_action := some 1 }

/-- A state with one registered menu action: id `0` mapped to callback `7`. -/
def reprActEx : Repr :=
  { window := { handle := some { hwnd := 1, hmenu := 2 } }
    last_menu_id := 1
    actions := [(0, 7)]
    balloon_action := none }

/-- A builder with an icon, a tip and two menu entries. -/
def builderEx : WnaBuilder :=
  { window_class := none
    icon := some (Icon.File "app.ico")
    tip := some "hello"
    menu_items := [MenuItem.Separator, MenuItem.Action "Quit" 9] }

/-- The id counter after `add_menu_item` is the incremented (wrapping) counter,
whatever the entry kind and the surface outcome. -/
theorem add_menu_item_last (s : Repr) (item : MenuItem) (r : Except String Unit) :
    ((s.add_menu_item item r).2).last_menu_id = (s.last_menu_id + 1) % U32 := by
  cases item <;> simp only [Repr.add_menu_item, Repr.next_menu_id] <;>
    (try split) <;> rfl

/-- `add_menu_item` never changes the window field. -/
theorem add_menu_item_window (s : Repr) (item : MenuItem) (r : Except String Unit) :
    ((s.add_menu_item item r).2).window = s.window := by
  cases item <;> simp only [Repr.add_menu_item, Repr.next_menu_id] <;>
    (try split) <;> rfl

/-- `add_menu_item` never changes the pending balloon callback. -/
theorem add_menu_item_balloon (s : Repr) (item : MenuItem) (r : Except String Unit) :
    ((s.add_menu_item item r).2).balloon_action = s.balloon_action := by
  cases item <;> simp only [Repr.add_menu_item, Repr.next_menu_id] <;>
    (try split) <;> rfl

/-- On an open window with a succeeding native call, `add_menu_item`
returns `Ok`. -/
theorem add_menu_item_ok_of_open (s : Repr) (item : MenuItem) (wh : WindowHandle)
    (hw : s.window.handle = some wh) :
    (s.add_menu_item item (Except.ok ())).1 = Except.ok () := by
  cases item <;>
    simp [Repr.add_menu_item, Repr.next_menu_id, Window.add_menu_item,
      Window.add_menu_separator, hw]

/-- On an open window with a failing native call, `add_menu_item` returns
exactly that error. -/
theorem add_menu_item_error_of_open (s : Repr) (item : MenuItem)
    (wh : WindowHandle) (e : String) (hw : s.window.handle = some wh) :
    (s.add_menu_item item (Except.error e)).1 = Except.error e := by
  cases item <;>
    simp [Repr.add_menu_item, Repr.next_menu_id, Window.add_menu_item,
      Window.add_menu_separator, hw]

/-- The ids allocated by a sequence of `add_menu_item` calls are the
consecutive wrapped values of the counter. -/
theorem runAdds_ids (items : List MenuItem) :
    ∀ (s : Repr) (res : Nat → Except String Unit) (i : Nat),
      s.last_menu_id < U32 →
      (runAdds s items res i).1 =
        (List.range items.length).map (fun k => (s.last_menu_id + k) % U32) := by
  induction items with
  | nil => intro s res i h; rfl
  | cons item rest ih =>
    intro s res i h
    have h1 : ((s.add_menu_item item (res i)).2).last_menu_id
        = (s.last_menu_id + 1) % U32 := add_menu_item_last s item (res i)
    have h2 : ((s.add_menu_item item (res i)).2).last_menu_id < U32 := by
      rw [h1]; exact Nat.mod_lt _ (by norm_num [U32])
    have ihx := ih ((s.add_menu_item item (res i)).2) res (i + 1) h2
    simp only [runAdds, List.length_cons, List.range_succ_eq_map, List.map_cons,
      List.map_map, ihx, h1, Repr.next_menu_id]
    refine congrArg₂ List.cons ?_ ?_
    · rw [Nat.add_zero, Nat.mod_eq_of_lt h]
    · have hf : (fun k => ((s.last_menu_id + 1) % U32 + k) % U32)
          = ((fun k => (s.last_menu_id + k) % U32) ∘ Nat.succ) := by
        funext k
        simp only [Function.comp]
        rw [Nat.mod_add_mod, Nat.succ_eq_add_one, Nat.add_assoc, Nat.add_comm 1 k]
      rw [hf]

/-- From a fresh counter, a sequence of at most `2 ^ 32` `add_menu_item` calls
allocates exactly the ids `0, 1, ..., n - 1` in order. -/
theorem runAdds_ids_from_zero (items : List MenuItem)
    (res : Nat → Except String Unit) (s : Repr)
    (h0 : s.last_menu_id = 0) (hn : items.length ≤ U32) :
    (runAdds s items res 0).1 = List.range items.length := by
  have hids := runAdds_ids items s res 0 (by rw [h0]; norm_num [U32])
  rw [h0] at hids
  have hmap : (List.range items.length).map (fun k => (0 + k) % U32)
      = (List.range items.length).map id := by
    apply List.map_congr_left
    intro a ha
    rw [List.mem_range] at ha
    simp only [id]
    rw [Nat.zero_add, Nat.mod_eq_of_lt (by omega)]
  rw [hids, hmap, List.map_id]

/-- The id counter after a sequence of `add_menu_item` calls. -/
theorem runAdds_last (items : List MenuItem) :
    ∀ (s : Repr) (res : Nat → Except String Unit) (i : Nat),
      s.last_menu_id < U32 →
      ((runAdds s items res i).2).last_menu_id
        = (s.last_menu_id + items.length) % U32 := by
  induction items with
  | nil =>
    intro s res i h
    simp only [runAdds, List.length_nil, Nat.add_zero]
    exact (Nat.mod_eq_of_lt h).symm
  | cons item rest ih =>
    intro s res i h
    have h1 : ((s.add_menu_item item (res i)).2).last_menu_id
        = (s.last_menu_id + 1) % U32 := add_menu_item_last s item (res i)
    have h2 : ((s.add_menu_item item (res i)).2).last_menu_id < U32 := by
      rw [h1]; exact Nat.mod_lt _ (by norm_num [U32])
    have ihx := ih ((s.add_menu_item item (res i)).2) res (i + 1) h2
    simp only [runAdds, List.length_cons, ihx, h1, Nat.mod_add_mod]
    rw [Nat.add_assoc, Nat.add_comm 1 rest.length]

/-- A sequence of `add_menu_item` calls never changes the pending balloon
callback. -/
theorem runAdds_balloon (items : List MenuItem) :
    ∀ (s : Repr) (res : Nat → Except String Unit) (i : Nat),
      ((runAdds s items res i).2).balloon_action = s.balloon_action := by
  induction items with
  | nil => intro s res i; rfl
  | cons item rest ih =>
    intro s res i
    simp only [runAdds]
    rw [ih, add_menu_item_balloon]

/-- A sequence of `add_menu_item` calls never changes the window field. -/
theorem runAdds_window (items : List MenuItem) :
    ∀ (s : Repr) (res : Nat → Except String Unit) (i : Nat),
      ((runAdds s items res i).2).window = s.window := by
  induction items with
  | nil => intro s res i; rfl
  | cons item rest ih =>
    intro s res i
    simp only [runAdds]
    rw [ih, add_menu_item_window]

/-- On an open window with succeeding native calls, the builder's menu loop
succeeds and produces the same final state as the instrumented trace
`runAdds`. -/
theorem applyItems_runAdds (items : List MenuItem) :
    ∀ (s : Repr) (i : Nat) (wh : WindowHandle), s.window.handle = some wh →
      applyItems s items (fun _ => Except.ok ()) i
        = Except.ok (runAdds s items (fun _ => Except.ok ()) i).2 := by
  induction items with
  | nil => intro s i wh hw; rfl
  | cons item rest ih =>
    intro s i wh hw
    have hok := add_menu_item_ok_of_open s item wh hw
    have hw1 : ((s.add_menu_item item (Except.ok ())).2).window.handle = some wh := by
      rw [add_menu_item_window]; exact hw
    have ihx := ih ((s.add_menu_item item (Except.ok ())).2) (i + 1) wh hw1
    simp only [applyItems, runAdds]
    rcases hx : s.add_menu_item item (Except.ok ()) with ⟨r, s1⟩
    rw [hx] at hok ihx
    dsimp only at hok ihx
    subst hok
    exact ihx

/-- The builder's menu loop stops with the error of a failing
`add_menu_item` call at the head. -/
theorem applyItems_cons_error (s : Repr) (item : MenuItem)
    (rest : List MenuItem) (res : Nat → Except String Unit) (i : Nat)
    (e : String) (h : (s.add_menu_item item (res i)).1 = Except.error e) :
    applyItems s (item :: rest) res i = Except.error e := by
  simp only [applyItems]
  rcases hx : s.add_menu_item item (res i) with ⟨r, s1⟩
  rw [hx] at h
  dsimp only at h
  subst h
  rfl

/-- The builder's menu loop steps over a successful `add_menu_item` call at
the head. -/
theorem applyItems_cons_ok (s : Repr) (item : MenuItem)
    (rest : List MenuItem) (res : Nat → Except String Unit) (i : Nat)
    (h : (s.add_menu_item item (res i)).1 = Except.ok ()) :
    applyItems s (item :: rest) res i
      = applyItems ((s.add_menu_item item (res i)).2) rest res (i + 1) := by
  simp only [applyItems]
  rcases hx : s.add_menu_item item (res i) with ⟨r, s1⟩
  rw [hx] at h
  dsimp only at h
  subst h
  rfl

/-- If exactly the `j`-th native menu-insert call fails, the builder's menu
loop (started at index `i ≤ j`, on an open window, with `j` inside the
sequence) aborts with that error. -/
theorem applyItems_failAt (e : String) (items : List MenuItem) :
    ∀ (s : Repr) (i j : Nat) (wh : WindowHandle),
      s.window.handle = some wh → i ≤ j → j < i + items.length →
      applyItems s items
        (fun k => if k = j then Except.error e else Except.ok ()) i
        = Except.error e := by
  induction items with
  | nil =>
    intro s i j wh hw hij hlt
    simp only [List.length_nil, Nat.add_zero] at hlt
    omega
  | cons item rest ih =>
    intro s i j wh hw hij hlt
    rcases Nat.eq_or_lt_of_le hij with heq | hlt2
    · subst heq
      have hfail :
          (s.add_menu_item item
            ((fun k => if k = i then Except.error e else Except.ok ()) i)).1
            = Except.error e := by
        simp only [if_pos rfl]
        exact add_menu_item_error_of_open s item wh e hw
      exact applyItems_cons_error s item rest _ i e hfail
    · have hok :
          (s.add_menu_item item
            ((fun k => if k = j then Except.error e else Except.ok ()) i)).1
            = Except.ok () := by
        simp only [if_neg (by omega : ¬ i = j)]
        exact add_menu_item_ok_of_open s item wh hw
      rw [applyItems_cons_ok s item rest _ i hok]
      refine ih _ (i + 1) j wh ?_ hlt2 ?_
      · rw [add_menu_item_window]; exact hw
      · simp only [List.length_cons] at hlt; omega

/-- When window creation and both the icon and tip calls succeed, `build`
reduces to the menu loop started from the freshly constructed state. -/
theorem build_eq_applyItems (b : WnaBuilder) (wh : WindowHandle)
    (o : BuildOracle) (hc : o.createRes = Except.ok wh)
    (hi : o.iconRes = Except.ok ()) (ht : o.tipRes = Except.ok ()) :
    b.build o = applyItems (initRepr wh) b.menu_items o.itemRes 0 := by
  unfold WnaBuilder.build
  rw [hc]
  cases b.icon <;> cases b.tip <;>
    simp [Repr.set_icon, Repr.set_tip, Window.set_icon, Window.set_tip,
      hi, ht, initRepr]

end wna

namespace wna

/-- C1 (counterexample): the claim that every sequence of `add_menu_item`
calls allocates strictly monotonically increasing, never-repeating ids is
false as stated: `last_menu_id` is a 32-bit counter, so after `2 ^ 32 + 1`
calls (here, separators on a fresh state with all surface calls succeeding)
the allocated-id list is neither strictly increasing nor duplicate-free —
id `0` is allocated again by call number `2 ^ 32 + 1`. -/
theorem menu_id_wraps_after_u32_allocations :
    ¬ (List.Pairwise (fun a b => a < b)
        (runAdds reprEx (List.replicate (U32 + 1) MenuItem.Separator)
          (fun _ => Except.ok ()) 0).1 ∧
       (runAdds reprEx (List.replicate (U32 + 1) MenuItem.Separator)
          (fun _ => Except.ok ()) 0).1.Nodup) := by
  intro hcl
  have hnd := hcl.2
  have hids := runAdds_ids (List.replicate (U32 + 1) MenuItem.Separator) reprEx
    (fun _ => Except.ok ()) 0 (by norm_num [reprEx, U32])
  rw [hids, List.length_replicate] at hnd
  have hlast : reprEx.last_menu_id = 0 := rfl
  rw [hlast] at hnd
  have hlen : (List.map (fun k => (0 + k) % U32) (List.range (U32 + 1))).length
      = U32 + 1 := by
    rw [List.length_map, List.length_range]
  have h0 : (0 : Nat) < (List.map (fun k => (0 + k) % U32)
      (List.range (U32 + 1))).length := by
    rw [hlen]; omega
  have hU : U32 < (List.map (fun k => (0 + k) % U32)
      (List.range (U32 + 1))).length := by
    rw [hlen]; omega
  have hinj := @List.Nodup.getElem_inj_iff _
    (List.map (fun k => (0 + k) % U32) (List.range (U32 + 1))) hnd 0 h0 U32 hU
  have heq : (List.map (fun k => (0 + k) % U32) (List.range (U32 + 1)))[0]
      = (List.map (fun k => (0 + k) % U32) (List.range (U32 + 1)))[U32] := by
    simp only [List.getElem_map, List.getElem_range, Nat.zero_add, Nat.add_zero]
    rw [Nat.mod_self, Nat.zero_mod]
  have : (0 : Nat) = U32 := hinj.mp heq
  exact absurd this (by norm_num [U32])

/-- C1 (amended): for any sequence of `add_menu_item` calls on a state with a
fresh id counter — separators included, surface failures included — as long
as at most `2 ^ 32` ids are allocated in total, the allocated MenuIds are
strictly monotonically increasing and no id is allocated twice. -/
theorem menu_ids_strictly_monotone_and_fresh (items : List MenuItem)
    (res : Nat → Except String Unit) (s : Repr)
    (h0 : s.last_menu_id = 0) (hn : items.length ≤ U32) :
    List.Pairwise (fun a b => a < b) (runAdds s items res 0).1 ∧
    (runAdds s items res 0).1.Nodup := by
  rw [runAdds_ids_from_zero items res s h0 hn]
  exact ⟨List.pairwise_lt_range _, List.nodup_range _⟩

/-- Witness for C1 at a concrete three-entry sequence with an interleaved
separator. -/
theorem menu_ids_strictly_monotone_and_fresh_witness :
    (reprEx.last_menu_id = 0 ∧
      ([MenuItem.Separator, MenuItem.Action "a" 5, MenuItem.Separator] :
        List MenuItem).length ≤ U32) ∧
    (List.Pairwise (fun a b => a < b)
      (runAdds reprEx
        [MenuItem.Separator, MenuItem.Action "a" 5, MenuItem.Separator]
        (fun _ => Except.ok ()) 0).1 ∧
     (runAdds reprEx
        [MenuItem.Separator, MenuItem.Action "a" 5, MenuItem.Separator]
        (fun _ => Except.ok ()) 0).1.Nodup) :=
  ⟨⟨rfl, by norm_num [U32]⟩,
    menu_ids_strictly_monotone_and_fresh _ _ reprEx rfl (by norm_num [U32])⟩

/-- C2 (counterexample): `show_balloon` does not unconditionally overwrite the
pending balloon callback: on a state with pending callback `1` and a native
surface that rejects the balloon, the call returns the surface error and the
slot still holds callback `1`, not the new callback `2`. -/
theorem show_balloon_failure_keeps_old_callback :
    ((reprBalloonEx.show_balloon "t" "b" 2 (Except.error "boom")).2).balloon_action
      = some 1 ∧
    ((reprBalloonEx.show_balloon "t" "b" 2 (Except.error "boom")).2).balloon_action
      ≠ some 2 ∧
    (reprBalloonEx.show_balloon "t" "b" 2 (Except.error "boom")).1
      = Except.error "boom" := by
  refine ⟨rfl, ?_, rfl⟩
  decide

/-- C2 (amended): `show_balloon` forwards title and body to the native
surface; if that call succeeds the pending balloon-click slot is overwritten
with the new callback regardless of its previous contents, and if it fails
(including the closed-window case) the error is returned and the state —
in particular the pending slot — is left unchanged. -/
theorem show_balloon_forwards_and_overwrites_on_success (s : Repr)
    (t b : String) (cb : Action) (nres : Except String Unit) :
    (s.show_balloon t b cb nres).1 = s.window.show_balloon t b nres ∧
    (s.window.show_balloon t b nres = Except.ok () →
      (s.show_balloon t b cb nres).2 = { s with balloon_action := some cb }) ∧
    (∀ e, s.window.show_balloon t b nres = Except.error e →
      (s.show_balloon t b cb nres).2 = s) := by
  unfold Repr.show_balloon
  cases h : s.window.show_balloon t b nres <;> simp [h]

/-- Witness for C2 on a fresh open state with a succeeding surface call. -/
theorem show_balloon_forwards_and_overwrites_on_success_witness :
    reprEx.window.show_balloon "t" "b" (Except.ok ()) = Except.ok () ∧
    (reprEx.show_balloon "t" "b" 7 (Except.ok ())).2
      = { reprEx with balloon_action := some 7 } :=
  ⟨rfl,
    (show_balloon_forwards_and_overwrites_on_success reprEx "t" "b" 7
      (Except.ok ())).2.1 rfl⟩

/-- C3: `add_menu_item` allocates `id = last_menu_id`, increments the (32-bit)
counter whatever happens, forwards the insert to the window distinguishing
`Action` from `Separator`, registers `(id, callback)` in the action map only
for an `Action` whose surface insert succeeded, and on surface failure returns
the error with the id consumed and the map unchanged. -/
theorem add_menu_item_spec (s : Repr) (item : MenuItem)
    (nres : Except String Unit) :
    ((s.add_menu_item item nres).2).last_menu_id = (s.last_menu_id + 1) % U32 ∧
    ((s.add_menu_item item nres).2).window = s.window ∧
    (∀ title cb, item = MenuItem.Action title cb →
      (s.add_menu_item item nres).1
        = s.window.add_menu_item s.last_menu_id title nres ∧
      ((s.add_menu_item item nres).1 = Except.ok () →
        ((s.add_menu_item item nres).2).actions
          = mapInsert s.actions s.last_menu_id cb) ∧
      (∀ e, (s.add_menu_item item nres).1 = Except.error e →
        ((s.add_menu_item item nres).2).actions = s.actions)) ∧
    (item = MenuItem.Separator →
      (s.add_menu_item item nres).1
        = s.window.add_menu_separator s.last_menu_id nres ∧
      ((s.add_menu_item item nres).2).actions = s.actions) := by
  refine ⟨add_menu_item_last s item nres, add_menu_item_window s item nres,
    ?_, ?_⟩
  · rintro title cb rfl
    simp only [Repr.add_menu_item, Repr.next_menu_id]
    cases h : Window.add_menu_item s.window s.last_menu_id title nres <;> simp [h]
  · rintro rfl
    exact ⟨rfl, rfl⟩

/-- Witness for C3 at a concrete action entry and a concrete separator. -/
theorem add_menu_item_spec_witness :
    (reprEx.add_menu_item (MenuItem.Action "a" 7) (Except.ok ())).1
      = reprEx.window.add_menu_item reprEx.last_menu_id "a" (Except.ok ()) ∧
    ((reprEx.add_menu_item (MenuItem.Action "a" 7) (Except.ok ())).2).actions
      = mapInsert reprEx.actions reprEx.last_menu_id 7 ∧
    ((reprEx.add_menu_item MenuItem.Separator (Except.ok ())).2).actions
      = reprEx.actions :=
  ⟨((add_menu_item_spec reprEx (MenuItem.Action "a" 7)
      (Except.ok ())).2.2.1 "a" 7 rfl).1,
   ((add_menu_item_spec reprEx (MenuItem.Action "a" 7)
      (Except.ok ())).2.2.1 "a" 7 rfl).2.1 rfl,
   ((add_menu_item_spec reprEx MenuItem.Separator
      (Except.ok ())).2.2.2 rfl).2⟩

/-- C4: after two successful `show_balloon` calls (callbacks `cb1` then `cb2`)
a `Balloon` event invokes `cb2` exactly once — running two `Balloon` events
still invokes only `cb2`, once, so `cb1` never fires — the take-and-clear
leaves no pending callback, and a `Balloon` event on a state with no pending
callback is silently dropped: nothing is invoked, the state is unchanged and
the loop continues without error. -/
theorem balloon_click_fires_latest_callback_once (arc : Nat) (s : Repr)
    (t1 b1 t2 b2 : String) (cb1 cb2 : Action)
    (h : s.window.handle.isSome = true) :
    (run_events arc
        (((s.show_balloon t1 b1 cb1 (Except.ok ())).2).show_balloon t2 b2 cb2
            (Except.ok ())).2
        [Event.Balloon, Event.Balloon]).1.map Prod.fst = [cb2] ∧
    ((run_events arc
        (((s.show_balloon t1 b1 cb1 (Except.ok ())).2).show_balloon t2 b2 cb2
            (Except.ok ())).2
        [Event.Balloon]).2).balloon_action = none ∧
    (∀ s2 : Repr, s2.balloon_action = none →
      handle_event arc s2 Event.Balloon = (none, s2, false)) := by
  obtain ⟨wh, hw⟩ : ∃ wh, s.window.handle = some wh := by
    cases hx : s.window.handle with
    | none => rw [hx] at h; simp at h
    | some wh => exact ⟨wh, rfl⟩
  refine ⟨?_, ?_, ?_⟩
  · simp [Repr.show_balloon, Window.show_balloon, hw, run_events, handle_event]
  · simp [Repr.show_balloon, Window.show_balloon, hw, run_events, handle_event]
  · intro s2 h2
    rcases s2 with ⟨w2, l2, a2, ba2⟩
    dsimp at h2
    subst h2
    rfl

/-- Witness for C4 on a fresh open state with callbacks `1` and `2`. -/
theorem balloon_click_fires_latest_callback_once_witness :
    reprEx.window.handle.isSome = true ∧
    (run_events 4
        (((reprEx.show_balloon "t1" "b1" 1 (Except.ok ())).2).show_balloon
            "t2" "b2" 2 (Except.ok ())).2
        [Event.Balloon, Event.Balloon]).1.map Prod.fst = [2] :=
  ⟨rfl,
    (balloon_click_fires_latest_callback_once 4 reprEx "t1" "b1" "t2" "b2" 1 2
      rfl).1⟩

/-- C5: after `close` (whatever the channel-send outcome), every mutator —
`set_icon`, `set_tip`, `add_menu_item`, `show_balloon` — fails with the
closed-handle error, for every argument and every native-call oracle; being
total Lean functions, the embedded operations return this error rather than
panicking. -/
theorem mutators_fail_after_close (s : Repr) (sendOk : Bool) (icon : Icon)
    (tip t b : String) (item : MenuItem) (cb : Action)
    (n1 n2 n3 n4 : Except String Unit) :
    (((s.close sendOk).repr).set_icon icon n1).1 = Except.error closedErr ∧
    (((s.close sendOk).repr).set_tip tip n2).1 = Except.error closedErr ∧
    (((s.close sendOk).repr).add_menu_item item n3).1 = Except.error closedErr ∧
    (((s.close sendOk).repr).show_balloon t b cb n4).1
      = Except.error closedErr := by
  refine ⟨rfl, rfl, ?_, rfl⟩
  cases item <;> rfl

/-- C6: `close` always returns `Ok`, destroys the window (posting the destroy
message only when a live handle exists), and best-effort sends `Quit`
(`Shutdown`), ignoring a send failure; a second `close` on the already-closed
state again returns `Ok`, leaves the state exactly as the first close left it,
and posts no second destroy message. -/
theorem close_idempotent (s : Repr) (k1 k2 : Bool) :
    (s.close k1).result = Except.ok () ∧
    ((s.close k1).repr).window.handle = none ∧
    (s.close k1).destroyPosted = s.window.handle.isSome ∧
    (s.close k1).sent = (if k1 then [Event.Quit] else []) ∧
    (((s.close k1).repr).close k2).result = Except.ok () ∧
    (((s.close k1).repr).close k2).repr = (s.close k1).repr ∧
    (((s.close k1).repr).close k2).destroyPosted = false ∧
    (((s.close k1).repr).close k2).sent = (if k2 then [Event.Quit] else []) :=
  ⟨rfl, rfl, rfl, rfl, rfl, rfl, rfl, rfl⟩

/-- C7: a `Menu id` event invokes exactly the callback registered for `id`,
once, handing it a fresh handle that references the same shared state (`arc`)
without thread-join ownership, and leaves the state unchanged (the callback is
copied out under the lock and invoked after release); for an unregistered id
(separator or unknown) nothing is invoked, the state is unchanged and the loop
continues without error. -/
theorem menu_event_dispatch_spec (arc : Nat) (s : Repr) (id : Nat) :
    (∀ a, mapGet s.actions id = some a →
      handle_event arc s (Event.Menu id)
        = (some (a, { reprArc := arc, thread := none }), s, false)) ∧
    (mapGet s.actions id = none →
      handle_event arc s (Event.Menu id) = (none, s, false)) := by
  constructor
  · intro a h; simp [handle_event, h]
  · intro h; simp [handle_event, h]

/-- Witness for C7: a registered id (`0`, callback `7`) and an unknown id
(`1`) on a concrete state. -/
theorem menu_event_dispatch_spec_witness :
    (mapGet reprActEx.actions 0 = some 7 ∧
      handle_event 4 reprActEx (Event.Menu 0)
        = (some (7, { reprArc := 4, thread := none }), reprActEx, false)) ∧
    (mapGet reprActEx.actions 1 = none ∧
      handle_event 4 reprActEx (Event.Menu 1) = (none, reprActEx, false)) :=
  ⟨⟨rfl, (menu_event_dispatch_spec 4 reprActEx 0).1 7 rfl⟩,
   ⟨rfl, (menu_event_dispatch_spec 4 reprActEx 1).2 rfl⟩⟩

/-- C8: a `Quit` (`Shutdown`) event makes the dispatch loop terminate
(the step reports termination, invoking nothing and leaving the state alone),
and the loop run on a queue starting with `Quit` processes none of the
queued events behind it. -/
theorem shutdown_stops_event_loop (arc : Nat) (s : Repr) (rest : List Event) :
    handle_event arc s Event.Quit = (none, s, true) ∧
    run_events arc s (Event.Quit :: rest) = ([], s) :=
  ⟨rfl, rfl⟩

/-- C9: `build` constructs the shared state with a zero id counter, empty
action map and no pending balloon callback (the empty-builder build returns
exactly `initRepr`); with all surface calls succeeding it applies the
accumulated entries through the ordinary `Repr.add_menu_item` codepath
(its result is the `runAdds` fold state), handing the `n` accumulated menu
entries the ids `0 .. n-1` in insertion order and leaving the counter at `n`
with no balloon callback; and any failing sub-call — a failing icon call, a
failing tooltip call, or a failing native insert for any menu entry — aborts
`build`, which propagates that error instead of producing a handle. -/
theorem build_spec (wh : WindowHandle) (b : WnaBuilder) (e : String)
    (hn : b.menu_items.length < U32) :
    WnaBuilder.build
        { window_class := none, icon := none, tip := none, menu_items := [] }
        (allOk wh) = Except.ok (initRepr wh) ∧
    b.build (allOk wh)
      = Except.ok (runAdds (initRepr wh) b.menu_items (fun _ => Except.ok ()) 0).2 ∧
    (runAdds (initRepr wh) b.menu_items (fun _ => Except.ok ()) 0).1
      = List.range b.menu_items.length ∧
    ((runAdds (initRepr wh) b.menu_items (fun _ => Except.ok ()) 0).2).last_menu_id
      = b.menu_items.length ∧
    ((runAdds (initRepr wh) b.menu_items (fun _ => Except.ok ()) 0).2).window.handle
      = some wh ∧
    ((runAdds (initRepr wh) b.menu_items (fun _ => Except.ok ()) 0).2).balloon_action
      = none ∧
    (∀ ic, b.icon = some ic →
      b.build
          { createRes := Except.ok wh, iconRes := Except.error e,
            tipRes := Except.ok (), itemRes := fun _ => Except.ok () }
        = Except.error e) ∧
    (∀ tp, b.tip = some tp →
      b.build
          { createRes := Except.ok wh, iconRes := Except.ok (),
            tipRes := Except.error e, itemRes := fun _ => Except.ok () }
        = Except.error e) ∧
    (∀ j, j < b.menu_items.length →
      b.build
          { createRes := Except.ok wh, iconRes := Except.ok (),
            tipRes := Except.ok (),
            itemRes := fun k => if k = j then Except.error e else Except.ok () }
        = Except.error e) := by
  refine ⟨rfl, ?_, ?_, ?_, ?_, ?_, ?_, ?_, ?_⟩
  · rw [build_eq_applyItems b wh (allOk wh) rfl rfl rfl]
    exact applyItems_runAdds b.menu_items (initRepr wh) 0 wh rfl
  · exact runAdds_ids_from_zero b.menu_items (fun _ => Except.ok ())
      (initRepr wh) rfl (Nat.le_of_lt hn)
  · have := runAdds_last b.menu_items (initRepr wh) (fun _ => Except.ok ()) 0
      (by norm_num [initRepr, U32])
    rw [this]
    show (0 + b.menu_items.length) % U32 = _
    rw [Nat.zero_add, Nat.mod_eq_of_lt hn]
  · rw [runAdds_window]; rfl
  · rw [runAdds_balloon]; rfl
  · intro ic hic
    simp [WnaBuilder.build, hic, Repr.set_icon, Window.set_icon]
  · intro tp htp
    unfold WnaBuilder.build
    cases hic : b.icon <;>
      simp [htp, Repr.set_icon, Repr.set_tip, Window.set_icon, Window.set_tip]
  · intro j hj
    rw [build_eq_applyItems b wh _ rfl rfl rfl]
    exact applyItems_failAt e b.menu_items (initRepr wh) 0 j wh rfl
      (Nat.zero_le j) (by omega)

/-- Witness for C9 at a concrete builder with icon, tip, one separator and one
action entry, exercising a failing icon call, a failing tip call, and a
failing native insert for the second menu entry. -/
theorem build_spec_witness :
    builderEx.menu_items.length < U32 ∧
    builderEx.build (allOk { hwnd := 1, hmenu := 2 })
      = Except.ok (runAdds (initRepr { hwnd := 1, hmenu := 2 })
          builderEx.menu_items (fun _ => Except.ok ()) 0).2 ∧
    (runAdds (initRepr { hwnd := 1, hmenu := 2 }) builderEx.menu_items
        (fun _ => Except.ok ()) 0).1 = List.range builderEx.menu_items.length ∧
    builderEx.build
        { createRes := Except.ok { hwnd := 1, hmenu := 2 },
          iconRes := Except.error "boom", tipRes := Except.ok (),
          itemRes := fun _ => Except.ok () }
      = Except.error "boom" ∧
    builderEx.build
        { createRes := Except.ok { hwnd := 1, hmenu := 2 },
          iconRes := Except.ok (), tipRes := Except.error "boom",
          itemRes := fun _ => Except.ok () }
      = Except.error "boom" ∧
    builderEx.build
        { createRes := Except.ok { hwnd := 1, hmenu := 2 },
          iconRes := Except.ok (), tipRes := Except.ok (),
          itemRes := fun k => if k = 1 then Except.error "boom" else Except.ok () }
      = Except.error "boom" := by
  have h := build_spec { hwnd := 1, hmenu := 2 } builderEx "boom"
    (by norm_num [builderEx, U32])
  exact ⟨by norm_num [builderEx, U32], h.2.1, h.2.2.1,
    h.2.2.2.2.2.2.1 (Icon.File "app.ico") rfl,
    h.2.2.2.2.2.2.2.1 "hello" rfl,
    h.2.2.2.2.2.2.2.2 1 (by norm_num [builderEx])⟩

/-- C10: processing a `Menu id` event leaves the entire shared state — in
particular the action map — unchanged (the callback is copied out, not taken),
so the same id dispatches the same registered callback again on every later
`Menu id` event: two consecutive events each invoke it, and the map is still
intact afterwards. -/
theorem menu_dispatch_keeps_action_registered (arc : Nat) (s : Repr) (id : Nat) :
    ((handle_event arc s (Event.Menu id)).2).1 = s ∧
    (∀ a, mapGet s.actions id = some a →
      (run_events arc s [Event.Menu id, Event.Menu id]).1.map Prod.fst = [a, a] ∧
      ((run_events arc s [Event.Menu id, Event.Menu id]).2).actions
        = s.actions) := by
  constructor
  · cases h : mapGet s.actions id <;> simp [handle_event, h]
  · intro a h
    simp [run_events, handle_event, h]

/-- Witness for C10: id `0` with registered callback `7` dispatches twice on a
concrete state. -/
theorem menu_dispatch_keeps_action_registered_witness :
    mapGet reprActEx.actions 0 = some 7 ∧
    (run_events 4 reprActEx [Event.Menu 0, Event.Menu 0]).1.map Prod.fst
      = [7, 7] ∧
    ((run_events 4 reprActEx [Event.Menu 0, Event.Menu 0]).2).actions
      = reprActEx.actions :=
  ⟨rfl,
    ((menu_dispatch_keeps_action_registered 4 reprActEx 0).2 7 rfl).1,
    ((menu_dispatch_keeps_action_registered 4 reprActEx 0).2 7 rfl).2⟩

end wna
